import Mathlib

/-!
Shallow embedding of `src/dns_query_tool.py` (tc45/dns_tools).

Modelling conventions:
* Python floats are modelled as exact rationals (`ℚ`).
* The external world seen by one query (the result of `resolver.resolve`, the two
  `time.time()` readings taken around it, the `datetime.now()` string, and whether each
  successive `log_file.write` attempt raises) is a `QueryEnv` record; a whole run gets one
  `QueryEnv` per query index.
* An exception that escapes a Python function is an `Except.error`; log lines actually
  written are collected in a trace, as are the driver's executor invocations and
  `update_screen` calls.
-/

namespace DnsQueryTool

/-- Model of the `dns.resolver.Resolver` object as configured by `configure_resolver`
(lines 9-24): the fields the program sets are `nameservers`, `timeout` and `lifetime`. -/
structure Resolver where
  nameservers : List String
  timeout : ℚ
  lifetime : ℚ
deriving DecidableEq

/-- Lines 9-24 of `dns_query_tool.py`: `configure_resolver(dns_server, timeout)` builds a
resolver with `nameservers = [dns_server]`, `timeout = timeout`, `lifetime = timeout`.
The Python function performs no validation of `timeout` and always returns normally. -/
def configure_resolver (dns_server : String) (timeout : ℚ) : Resolver :=
  { nameservers := [dns_server], timeout := timeout, lifetime := timeout }

/-- Modelled from the spec: section 4.1 says the Resolver Configuration
"Fails fast (construction error) if timeout ≤ 0". No such check exists anywhere in
`configure_resolver`; this definition follows the spec's words so the source function can
be compared against it. -/
def configure_resolver_specced (dns_server : String) (timeout : ℚ) : Except String Resolver :=
  if timeout ≤ 0 then Except.error "timeout must be positive"
  else Except.ok { nameservers := [dns_server], timeout := timeout, lifetime := timeout }

/-- The external world seen by one call of `test_dns_query`:
* `resolveRes` — what `resolver.resolve(domain, record_type)` does: `.ok answer` when it
  returns an answer object (rendered as a string), `.error e` when it raises with message `e`;
* `t0`, `t1` — the two `time.time()` wall-clock readings taken on lines 44 and 46
  (wall-clock readings carry no monotonicity guarantee, so they are arbitrary rationals);
* `timestamp` — the `datetime.now().strftime(...)` string;
* `writeOk n` — whether the `n`-th `log_file.write` attempt made during this call
  returns normally (`true`) or raises (`false`). -/
structure QueryEnv where
  resolveRes : Except String String
  t0 : ℚ
  t1 : ℚ
  timestamp : String
  writeOk : ℕ → Bool

/-- The log line written on line 50 for a successful query. -/
def successLine (timestamp : String) (query_number total_queries : ℕ)
    (domain answer : String) (query_time : ℚ) : String :=
  timestamp ++ " - Query " ++ toString query_number ++ "/" ++ toString total_queries ++
    " successful: " ++ domain ++ " Record: " ++ answer ++ " Time: " ++
    toString query_time ++ "ms"

/-- The log line written on line 55 for a failed query, `e` being the exception text. -/
def failLine (timestamp : String) (query_number total_queries : ℕ) (e : String) : String :=
  timestamp ++ " - Query " ++ toString query_number ++ "/" ++ toString total_queries ++
    " failed: " ++ e

/-- Result of one call of `test_dns_query`: `result` is the value returned (the Python
`(success, query_time)` tuple) or, as `.error`, an exception that escaped the function;
`log` is the list of lines actually appended to the log sink during the call. -/
structure ExecOut where
  result : Except String (Bool × Option ℚ)
  log : List String

/-- Lines 27-56 of `dns_query_tool.py`: `test_dns_query`. Control flow of the source:
the whole body, including the success-path `log_file.write` on line 50, sits inside the
`try`; the `except Exception` handler (lines 52-56) performs its own `log_file.write`
(line 55), and an exception raised by that write is not caught and escapes the function.
So with `debug` on:
* resolve returns, first write returns: `(True, query_time)`, success line logged;
* resolve returns, first write raises, the handler's write returns: `(False, None)` —
  the write failure is folded into a failure outcome (handler logs a line whose exception
  text is the write error, modelled as the fixed string "log write error");
* resolve returns, both writes raise: the write error escapes;
* resolve raises, handler write returns: `(False, None)`, failure line logged;
* resolve raises, handler write raises: the write error escapes.
`query_time = (end_time - start_time) * 1000` is computed from the readings `t0`, `t1`
taken immediately around `resolver.resolve` only; on the raise path no end reading is
taken and no latency is computed. The `resolver` argument is passed for fidelity with the
call shape; the resolution result itself is supplied by `env.resolveRes`. -/
def test_dns_query (resolver : Resolver) (env : QueryEnv) (domain : String)
    (debug : Bool) (query_number total_queries : ℕ) : ExecOut :=
  match env.resolveRes with
  | Except.ok answer =>
      let query_time := (env.t1 - env.t0) * 1000
      if debug then
        if env.writeOk 0 then
          { result := Except.ok (true, some query_time),
            log := [successLine env.timestamp query_number total_queries domain answer
                      query_time] }
        else if env.writeOk 1 then
          { result := Except.ok (false, none),
            log := [failLine env.timestamp query_number total_queries "log write error"] }
        else
          { result := Except.error "log write error", log := [] }
      else
        { result := Except.ok (true, some query_time), log := [] }
  | Except.error e =>
      if debug then
        if env.writeOk 0 then
          { result := Except.ok (false, none),
            log := [failLine env.timestamp query_number total_queries e] }
        else
          { result := Except.error "log write error", log := [] }
      else
        { result := Except.ok (false, none), log := [] }

/-- The run aggregate built by `perform_dns_queries` (lines 74-76), together with the
observable traces of the run: `log` — lines appended to the log sink; `calls` — one entry
`(query_number, resolver)` per invocation of `test_dns_query`, in order; `renders` — one
entry `(progress, current, total)` per invocation of `update_screen`, in order. -/
structure RunState where
  success_count : ℕ
  failure_count : ℕ
  response_times : List ℚ
  log : List String
  calls : List (ℕ × Resolver)
  renders : List (ℚ × ℕ × ℕ)
deriving DecidableEq

/-- Lines 74-76: `success_count = 0`, `failure_count = 0`, `response_times = []`. -/
def initState : RunState :=
  { success_count := 0, failure_count := 0, response_times := [], log := [],
    calls := [], renders := [] }

/-- One iteration of the loop body of `perform_dns_queries` (lines 79-89), after
`test_dns_query` has returned `(success, query_time)` having written `written` to the log:
lines 80-84 update the counters (on success `query_time` is appended to `response_times`;
the executor always pairs `success = true` with `some` latency, so the `getD 0` default is
never reached in a composed run); lines 86-87 compute `progress = (i + 1) / num_queries`
and call `update_screen(progress, i + 1, num_queries, start_time)`. The `time.sleep(0.01)`
on line 89 has no observable effect in the model. -/
def stepState (resolver : Resolver) (st : RunState) (i num_queries : ℕ)
    (success : Bool) (query_time : Option ℚ) (written : List String) : RunState :=
  { success_count := if success then st.success_count + 1 else st.success_count,
    failure_count := if success then st.failure_count else st.failure_count + 1,
    response_times :=
      if success then st.response_times ++ [query_time.getD 0] else st.response_times,
    log := st.log ++ written,
    calls := st.calls ++ [(i + 1, resolver)],
    renders := st.renders ++ [(((i : ℚ) + 1) / (num_queries : ℚ), i + 1, num_queries)] }

/-- The `for i in range(num_queries)` loop of lines 78-89, iterating over the remaining
index list. An exception escaping `test_dns_query` propagates out of the loop. -/
def performLoop (resolver : Resolver) (env : ℕ → QueryEnv) (domain : String)
    (debug : Bool) (num_queries : ℕ) : List ℕ → RunState → Except String RunState
  | [], st => Except.ok st
  | i :: rest, st =>
      match (test_dns_query resolver (env i) domain debug (i + 1) num_queries).result with
      | Except.error e => Except.error e
      | Except.ok (success, query_time) =>
          performLoop resolver env domain debug num_queries rest
            (stepState resolver st i num_queries success query_time
              (test_dns_query resolver (env i) domain debug (i + 1) num_queries).log)

/-- Lines 59-91 of `dns_query_tool.py`: `perform_dns_queries` runs the loop over
`range(num_queries)` starting from the zeroed aggregate and returns
`(success_count, failure_count, response_times)` — here the whole `RunState`, whose first
three fields are that tuple. -/
def perform_dns_queries (resolver : Resolver) (env : ℕ → QueryEnv) (domain : String)
    (debug : Bool) (num_queries : ℕ) : Except String RunState :=
  performLoop resolver env domain debug num_queries (List.range num_queries) initState

/-- Lines 94-110 of `dns_query_tool.py`: `calculate_metrics(response_times)` returns the
tuple `(max, min, average)`: for a non-empty list Python's `max`/`min` (a fold of the
binary operation over the elements starting from the first) and `sum / len`; for an empty
list all three are `None`. -/
def calculate_metrics (response_times : List ℚ) : Option ℚ × Option ℚ × Option ℚ :=
  match response_times with
  | [] => (none, none, none)
  | x :: xs =>
      (some (List.foldl max x xs), some (List.foldl min x xs),
       some (List.sum (x :: xs) / ((List.length (x :: xs) : ℚ))))

/-- How one latency figure appears in the summary text: a numeric value rendered with
`:.2f` (the numeric formatting itself is abstracted, the rational value is kept), or the
literal `N/A` placeholder. -/
inductive Figure where
  | value : ℚ → Figure
  | na : Figure
deriving DecidableEq

/-- Lines 128-130 of `dns_query_tool.py`: `f"...{x:.2f}ms" if x else "...N/A"`.
The condition is Python truthiness of the variable itself: `None` and `0.0` are falsy and
render `N/A`; any other float renders as a value. -/
def figureOf : Option ℚ → Figure
  | none => Figure.na
  | some x => if x = 0 then Figure.na else Figure.value x

/-- The content of the summary block built on lines 125-130: total time, the two counts,
and the three latency figures in the order they appear (max, min, average). -/
structure Summary where
  totalTime : ℚ
  successes : ℕ
  failures : ℕ
  maxFig : Figure
  minFig : Figure
  avgFig : Figure
deriving DecidableEq

/-- Lines 112-135 of `dns_query_tool.py`: `print_summary` builds the summary block,
prints it (first component), and appends it to the log sink only under `if log_file:`
(second component: the list of summaries appended to the log — empty when `log_file` is
absent, i.e. when debug mode is off and `log_file = None`). -/
def print_summary (success_count failure_count : ℕ)
    (max_response_time min_response_time avg_response_time : Option ℚ)
    (total_time : ℚ) (log_file : Bool) : Summary × List Summary :=
  let s : Summary :=
    { totalTime := total_time, successes := success_count, failures := failure_count,
      maxFig := figureOf max_response_time, minFig := figureOf min_response_time,
      avgFig := figureOf avg_response_time }
  (s, if log_file then [s] else [])

/-- Line 148 of `dns_query_tool.py`: `bar_length = 30`. -/
def bar_length : ℕ := 30

/-- Line 149 of `dns_query_tool.py`: `filled_length = int(bar_length * progress)`.
Python's `int()` truncates toward zero; every `progress` the program passes is
non-negative ((i+1)/num_queries with i ≥ 0, num_queries > 0), where truncation is the
floor, so the model uses `Nat.floor`. -/
def filled_length (progress : ℚ) : ℕ := ⌊(bar_length : ℚ) * progress⌋₊

/-! Helper lemmas about Python's `max(list)` / `min(list)`, modelled as left folds. -/

theorem le_foldl_max (xs : List ℚ) (x : ℚ) : x ≤ xs.foldl max x := by
  induction xs generalizing x with
  | nil => exact le_refl x
  | cons y ys ih => exact le_trans (le_max_left x y) (ih (max x y))

theorem mem_le_foldl_max (xs : List ℚ) (x a : ℚ) (ha : a ∈ xs) : a ≤ xs.foldl max x := by
  induction xs generalizing x with
  | nil => cases ha
  | cons y ys ih =>
      rcases List.mem_cons.1 ha with h | h
      · subst h; exact le_trans (le_max_right x a) (le_foldl_max ys (max x a))
      · exact ih (max x y) h

theorem foldl_min_le (xs : List ℚ) (x : ℚ) : xs.foldl min x ≤ x := by
  induction xs generalizing x with
  | nil => exact le_refl x
  | cons y ys ih => exact le_trans (ih (min x y)) (min_le_left x y)

theorem foldl_min_le_mem (xs : List ℚ) (x a : ℚ) (ha : a ∈ xs) : xs.foldl min x ≤ a := by
  induction xs generalizing x with
  | nil => cases ha
  | cons y ys ih =>
      rcases List.mem_cons.1 ha with h | h
      · subst h; exact le_trans (foldl_min_le ys (min x a)) (min_le_right x a)
      · exact ih (min x y) h

/-- C5: for every non-empty latency sample list, `calculate_metrics` returns max, min
and average all defined, the average is the arithmetic mean `sum / len`, and
`min ≤ average ≤ max`. -/
theorem calculate_metrics_min_le_avg_le_max (l : List ℚ) (hl : l ≠ []) :
    ∃ mx mn av : ℚ,
      calculate_metrics l = (some mx, some mn, some av) ∧
      av = List.sum l / (List.length l : ℚ) ∧ mn ≤ av ∧ av ≤ mx := by
  match l, hl with
  | x :: xs, _ =>
    have hlen : (0 : ℚ) < (List.length (x :: xs) : ℚ) := by
      exact_mod_cast Nat.succ_pos xs.length
    refine ⟨List.foldl max x xs, List.foldl min x xs,
      List.sum (x :: xs) / (List.length (x :: xs) : ℚ), rfl, rfl, ?_, ?_⟩
    · rw [le_div_iff₀ hlen]
      have h := List.card_nsmul_le_sum (x :: xs) (List.foldl min x xs) ?_
      · calc List.foldl min x xs * (List.length (x :: xs) : ℚ)
            = (List.length (x :: xs) : ℚ) * List.foldl min x xs := by ring
          _ = List.length (x :: xs) • List.foldl min x xs := (nsmul_eq_mul _ _).symm
          _ ≤ List.sum (x :: xs) := h
      · intro a ha
        rcases List.mem_cons.1 ha with h1 | h1
        · subst h1; exact foldl_min_le xs a
        · exact foldl_min_le_mem xs x a h1
    · rw [div_le_iff₀ hlen]
      have h := List.sum_le_card_nsmul (x :: xs) (List.foldl max x xs) ?_
      · calc List.sum (x :: xs)
            ≤ List.length (x :: xs) • List.foldl max x xs := h
          _ = (List.length (x :: xs) : ℚ) * List.foldl max x xs := nsmul_eq_mul _ _
          _ = List.foldl max x xs * (List.length (x :: xs) : ℚ) := by ring
      · intro a ha
        rcases List.mem_cons.1 ha with h1 | h1
        · subst h1; exact le_foldl_max xs a
        · exact mem_le_foldl_max xs x a h1

/-- Witness for C5 at the concrete sample list `[2, 4]`. -/
theorem calculate_metrics_min_le_avg_le_max_witness :
    ∃ mx mn av : ℚ,
      calculate_metrics [2, 4] = (some mx, some mn, some av) ∧
      av = List.sum [(2 : ℚ), 4] / (List.length [(2 : ℚ), 4] : ℚ) ∧ mn ≤ av ∧ av ≤ mx :=
  calculate_metrics_min_le_avg_le_max [2, 4] (by simp)

/-- C3 (code bug): `calculate_metrics` itself makes all three metrics `None` exactly on
the empty list, but `print_summary` renders a figure as a value only when the float is
truthy (line 128-130: `... if max_response_time else "N/A"`), so a genuine 0.0 ms sample
is rendered `N/A`. At `response_times = [0.0, 5.0]` the metrics are max = 5, min = 0,
average = 5/2, all defined, yet the report shows Max and Average as values and Min as
`N/A` — a partial unavailability, contradicting the claim. -/
theorem print_summary_partial_unavailability :
    calculate_metrics [0, 5] = (some 5, some 0, some (5 / 2)) ∧
    (print_summary 2 0 (some 5) (some 0) (some (5 / 2)) 1 false).1.maxFig
      = Figure.value 5 ∧
    (print_summary 2 0 (some 5) (some 0) (some (5 / 2)) 1 false).1.avgFig
      = Figure.value (5 / 2) ∧
    (print_summary 2 0 (some 5) (some 0) (some (5 / 2)) 1 false).1.minFig
      = Figure.na := by
  refine ⟨by norm_num [calculate_metrics], ?_, ?_, ?_⟩ <;>
    norm_num [print_summary, figureOf]

/-- C6: for `current` in `1..total`, the progress bar's filled cell count
`int(bar_length * progress)` with `progress = current / total` equals
`⌊30 * current / total⌋` (here natural division `30 * current / total`), and for a fixed
positive `total` the fill count is monotone in `current`. -/
theorem filled_length_floor_mono (current total : ℕ)
    (h1 : 1 ≤ current) (h2 : current ≤ total) :
    filled_length ((current : ℚ) / (total : ℚ)) = bar_length * current / total ∧
    ∀ c₁ c₂ : ℕ, c₁ ≤ c₂ →
      filled_length ((c₁ : ℚ) / (total : ℚ)) ≤ filled_length ((c₂ : ℚ) / (total : ℚ)) := by
  have ht : 0 < total := lt_of_lt_of_le h1 h2
  have htq : (0 : ℚ) < (total : ℚ) := by exact_mod_cast ht
  constructor
  · have hcast : (bar_length : ℚ) * ((current : ℚ) / (total : ℚ))
        = ((bar_length * current : ℕ) : ℚ) / ((total : ℕ) : ℚ) := by
      push_cast; ring
    rw [filled_length, hcast, Nat.floor_div_nat, Nat.floor_natCast]
  · intro c₁ c₂ hc
    apply Nat.floor_le_floor
    have : (c₁ : ℚ) / (total : ℚ) ≤ (c₂ : ℚ) / (total : ℚ) := by
      rw [div_le_div_iff_of_pos_right htq]; exact_mod_cast hc
    have hb : (0 : ℚ) ≤ (bar_length : ℚ) := by positivity
    exact mul_le_mul_of_nonneg_left this hb

/-- Witness for C6 at `current = 3`, `total = 4` (fill count 22 = ⌊30·3/4⌋). -/
theorem filled_length_floor_mono_witness :
    filled_length (((3 : ℕ) : ℚ) / ((4 : ℕ) : ℚ)) = bar_length * 3 / 4 ∧
    ∀ c₁ c₂ : ℕ, c₁ ≤ c₂ →
      filled_length ((c₁ : ℚ) / ((4 : ℕ) : ℚ)) ≤ filled_length ((c₂ : ℚ) / ((4 : ℕ) : ℚ)) :=
  filled_length_floor_mono 3 4 (by norm_num) (by norm_num)

/-- C7: the degenerate input `queries == 0` makes the loop body (which contains the only
division `progress = (i + 1) / num_queries` and all rendering) execute zero times: the run
returns the zeroed aggregate without error, renders nothing, calls the executor never,
and the summary derived from it reports zero counts with all three figures `N/A`. -/
theorem zero_queries_degenerate (resolver : Resolver) (env : ℕ → QueryEnv)
    (domain : String) (debug : Bool) :
    perform_dns_queries resolver env domain debug 0 = Except.ok initState ∧
    initState.renders = [] ∧ initState.calls = [] ∧
    initState.success_count = 0 ∧ initState.failure_count = 0 ∧
    calculate_metrics initState.response_times = (none, none, none) ∧
    (print_summary 0 0 none none none 0 false).1
      = { totalTime := 0, successes := 0, failures := 0,
          maxFig := Figure.na, minFig := Figure.na, avgFig := Figure.na } :=
  ⟨rfl, rfl, rfl, rfl, rfl, rfl, rfl⟩

/-- C10: with debug logging disabled the Executor writes nothing to the log sink
(both `log_file.write` calls on lines 50 and 55 are guarded by `if debug:`), and
`print_summary` appends nothing to the log sink when no log file is open
(the write on line 135 is guarded by `if log_file:`). -/
theorem no_log_writes_when_logging_disabled (resolver : Resolver) (env : QueryEnv)
    (domain : String) (query_number total_queries success_count failure_count : ℕ)
    (mx mn av : Option ℚ) (total_time : ℚ) :
    (test_dns_query resolver env domain false query_number total_queries).log = [] ∧
    (print_summary success_count failure_count mx mn av total_time false).2 = [] := by
  constructor
  · cases h : env.resolveRes <;> simp [test_dns_query, h]
  · rfl

/-! Executor-level facts shared by several claims. -/

/-- A resolver configured like the spec's end-to-end scenario, used as the concrete
resolver argument of witnesses and counterexamples. -/
def exResolver : Resolver := configure_resolver "203.0.113.1" 1

/-- Whenever `test_dns_query` returns a Success outcome, the carried latency is exactly
`(t1 - t0) * 1000` — the two clock readings taken immediately around `resolver.resolve`,
unaffected by the debug flag or by any log-write behaviour (every log append happens only
after the timing window has closed). -/
theorem success_result_latency (resolver : Resolver) (env : QueryEnv) (domain : String)
    (debug : Bool) (query_number total_queries : ℕ) (q : Option ℚ)
    (hq : (test_dns_query resolver env domain debug query_number total_queries).result
      = Except.ok (true, q)) :
    q = some ((env.t1 - env.t0) * 1000) := by
  cases h0 : env.resolveRes with
  | error e =>
      cases debug with
      | false => simp [test_dns_query, h0] at hq
      | true => cases h1 : env.writeOk 0 <;> simp [test_dns_query, h0, h1] at hq
  | ok answer =>
      cases debug with
      | false =>
          simp [test_dns_query, h0] at hq
          exact hq.symm
      | true =>
          cases h1 : env.writeOk 0 with
          | false => cases h2 : env.writeOk 1 <;> simp [test_dns_query, h0, h1, h2] at hq
          | true =>
              simp [test_dns_query, h0, h1] at hq
              exact hq.symm

/-- Environment refuting C4: resolution succeeds, the first log write (the success line,
line 50, inside the `try`) raises, the except handler's own write (line 55) succeeds. -/
def c4Env : QueryEnv :=
  { resolveRes := Except.ok "192.0.2.1", t0 := 0, t1 := 1,
    timestamp := "2024-01-01 00:00:00", writeOk := fun n => n != 0 }

/-- C4 counterexample: with resolution succeeding and the log sink failing on the
success-line write, the Executor returns `(False, None)` — the log-sink write failure is
caught by the per-query `except Exception` (the write sits inside the `try`) and folded
into a Failure outcome, and nothing fatal happens. This refutes the claim that a write
failure on the log sink never causes the Executor to return a Failure outcome. -/
theorem write_failure_folded_into_outcome :
    c4Env.resolveRes = Except.ok "192.0.2.1" ∧
    c4Env.writeOk 0 = false ∧
    (test_dns_query exResolver c4Env "example.test" true 1 1).result
      = Except.ok (false, none) :=
  ⟨rfl, rfl, rfl⟩

/-- C4 amended: with debug on, a log-sink write failure on the success path is folded
into a Failure outcome when the except handler's own write succeeds, and propagates
(fatally) when it also fails; and the per-query log append occurs only after the latency
timing window has closed — every Success outcome's latency is exactly `(t1 - t0) * 1000`
from the readings around `resolver.resolve`, independent of log-write behaviour. -/
theorem write_failure_behavior (resolver : Resolver) (env : QueryEnv)
    (domain answer : String) (query_number total_queries : ℕ)
    (hres : env.resolveRes = Except.ok answer) (hw : env.writeOk 0 = false) :
    ((test_dns_query resolver env domain true query_number total_queries).result =
       if env.writeOk 1 then Except.ok (false, none)
       else Except.error "log write error") ∧
    (∀ (debug : Bool) (q : Option ℚ),
       (test_dns_query resolver env domain debug query_number total_queries).result
         = Except.ok (true, q) →
       q = some ((env.t1 - env.t0) * 1000)) := by
  constructor
  · cases h1 : env.writeOk 1 <;> simp [test_dns_query, hres, hw, h1]
  · intro debug q hq
    exact success_result_latency resolver env domain debug query_number total_queries q hq

/-- Witness for C4 amended at the concrete environment `c4Env`. -/
theorem write_failure_behavior_witness :
    ((test_dns_query exResolver c4Env "example.test" true 1 1).result =
       if c4Env.writeOk 1 then Except.ok (false, none)
       else Except.error "log write error") ∧
    (∀ (debug : Bool) (q : Option ℚ),
       (test_dns_query exResolver c4Env "example.test" debug 1 1).result
         = Except.ok (true, q) →
       q = some ((c4Env.t1 - c4Env.t0) * 1000)) :=
  write_failure_behavior exResolver c4Env "example.test" "192.0.2.1" 1 1 rfl rfl

/-- Environment refuting C8: the two `time.time()` readings around a successful
resolution step backwards (wall clock, not monotonic). -/
def c8Env : QueryEnv :=
  { resolveRes := Except.ok "192.0.2.7", t0 := 1, t1 := 0,
    timestamp := "2024-01-01 00:00:01", writeOk := fun _ => true }

/-- C8 counterexample: the code takes both timestamps from `time.time()` — the wall
clock, which may step backwards between the two readings — not a monotonic clock; with
readings `start = 1`, `end = 0` around a successful resolution, the Executor returns a
Success outcome carrying latency `(0 - 1) * 1000 = -1000` ms `< 0`, refuting the claim
that every Success outcome carries a non-negative latency. (On the raise path the code
also takes no end timestamp at all: line 46 is skipped when line 45 raises.) -/
theorem success_latency_negative_on_clock_step_back :
    (test_dns_query exResolver c8Env "example.test" false 1 1).result
      = Except.ok (true, some (-1000)) ∧ (-1000 : ℚ) < 0 := by
  constructor
  · norm_num [test_dns_query, c8Env]
  · norm_num

/-- C8 amended: latency is `(end - start) * 1000` milliseconds from the two wall-clock
readings taken immediately before `resolver.resolve` and immediately after it returns
(no end reading is taken when it raises); every Success outcome carries exactly that
latency, which is non-negative whenever the end reading is not earlier than the start
reading (guaranteed by a monotonic clock, but not by the wall clock the code uses). -/
theorem success_latency_nonneg_of_clock_mono (resolver : Resolver) (env : QueryEnv)
    (domain : String) (debug : Bool) (query_number total_queries : ℕ)
    (hclock : env.t0 ≤ env.t1) :
    ∀ q : ℚ, (test_dns_query resolver env domain debug query_number total_queries).result
        = Except.ok (true, some q) →
      q = (env.t1 - env.t0) * 1000 ∧ 0 ≤ q := by
  intro q hq
  have h := success_result_latency resolver env domain debug query_number total_queries
    (some q) hq
  have hq2 : q = (env.t1 - env.t0) * 1000 := Option.some.inj h
  refine ⟨hq2, ?_⟩
  rw [hq2]
  exact mul_nonneg (sub_nonneg.2 hclock) (by norm_num)

/-- Environment for the C8 witness: monotone readings `t0 = 0 ≤ t1 = 2`. -/
def c8wEnv : QueryEnv :=
  { resolveRes := Except.ok "192.0.2.7", t0 := 0, t1 := 2,
    timestamp := "2024-01-01 00:00:02", writeOk := fun _ => true }

/-- Witness for C8 amended at `c8wEnv` (latency 2000 ms). -/
theorem success_latency_nonneg_witness :
    (2000 : ℚ) = (c8wEnv.t1 - c8wEnv.t0) * 1000 ∧ (0 : ℚ) ≤ 2000 :=
  success_latency_nonneg_of_clock_mono exResolver c8wEnv "example.test" false 1 1
    (by norm_num [c8wEnv]) 2000 (by norm_num [test_dns_query, c8wEnv])

/-! Driver-level facts: lemmas about the query loop, shared by C1, C2 and C9. -/

/-- Loop invariant of `perform_dns_queries`: from any state whose sample list length
matches its success count, a completed stretch of the loop adds exactly one to
`success_count + failure_count` per iteration and keeps
`response_times.length = success_count`. -/
theorem performLoop_ok_invariant (resolver : Resolver) (env : ℕ → QueryEnv)
    (domain : String) (debug : Bool) (num_queries : ℕ) :
    ∀ (idxs : List ℕ) (st res : RunState),
      performLoop resolver env domain debug num_queries idxs st = Except.ok res →
      st.response_times.length = st.success_count →
      res.success_count + res.failure_count
        = st.success_count + st.failure_count + idxs.length ∧
      res.response_times.length = res.success_count := by
  intro idxs
  induction idxs with
  | nil =>
      intro st res h hlen
      simp only [performLoop, Except.ok.injEq] at h
      subst h
      exact ⟨by simp, hlen⟩
  | cons i rest ih =>
      intro st res h hlen
      simp only [performLoop] at h
      split at h
      · simp at h
      · rename_i success query_time heq
        obtain ⟨ha, hb⟩ := ih _ res h (by cases success <;> simp [stepState, hlen])
        refine ⟨?_, hb⟩
        rw [ha]
        cases success <;> simp [stepState] <;> omega

/-- In any completed stretch of the loop, the executor-invocation trace grows by exactly
one entry `(i + 1, resolver)` per processed index `i`, in index order. -/
theorem performLoop_ok_calls (resolver : Resolver) (env : ℕ → QueryEnv)
    (domain : String) (debug : Bool) (num_queries : ℕ) :
    ∀ (idxs : List ℕ) (st res : RunState),
      performLoop resolver env domain debug num_queries idxs st = Except.ok res →
      res.calls = st.calls ++ idxs.map (fun i => (i + 1, resolver)) := by
  intro idxs
  induction idxs with
  | nil =>
      intro st res h
      simp only [performLoop, Except.ok.injEq] at h
      subst h
      simp
  | cons i rest ih =>
      intro st res h
      simp only [performLoop] at h
      split at h
      · simp at h
      · rw [ih _ res h]
        simp [stepState, List.append_assoc]

/-- When every scheduled query yields an outcome (no exception escapes the executor),
the loop runs to completion. -/
theorem performLoop_ok_of_outcomes (resolver : Resolver) (env : ℕ → QueryEnv)
    (domain : String) (debug : Bool) (num_queries : ℕ) :
    ∀ (idxs : List ℕ) (st : RunState),
      (∀ i ∈ idxs, ∃ v,
        (test_dns_query resolver (env i) domain debug (i + 1) num_queries).result
          = Except.ok v) →
      ∃ res, performLoop resolver env domain debug num_queries idxs st = Except.ok res := by
  intro idxs
  induction idxs with
  | nil => intro st _; exact ⟨st, rfl⟩
  | cons i rest ih =>
      intro st h
      obtain ⟨⟨success, query_time⟩, hv⟩ := h i (List.mem_cons_self i rest)
      obtain ⟨res, hres⟩ := ih (stepState resolver st i num_queries success query_time
          (test_dns_query resolver (env i) domain debug (i + 1) num_queries).log)
        (fun j hj => h j (List.mem_cons_of_mem i hj))
      refine ⟨res, ?_⟩
      simp only [performLoop]
      rw [hv]
      exact hres

/-- C1: for every run of N ≥ 0 queries, a returned aggregate satisfies
`success_count + failure_count = N` and `response_times.length = success_count`
(second conjunct), and this invariant holds after every iteration of the loop: from any
intermediate state satisfying it, every completed stretch of the loop preserves it,
adding one query to the counts per iteration (first conjunct). -/
theorem run_aggregate_invariant (resolver : Resolver) (env : ℕ → QueryEnv)
    (domain : String) (debug : Bool) (totalQueries : ℕ) :
    (∀ (idxs : List ℕ) (st res : RunState),
        performLoop resolver env domain debug totalQueries idxs st = Except.ok res →
        st.response_times.length = st.success_count →
        res.success_count + res.failure_count
          = st.success_count + st.failure_count + idxs.length ∧
        res.response_times.length = res.success_count) ∧
    (∀ res : RunState,
        perform_dns_queries resolver env domain debug totalQueries = Except.ok res →
        res.success_count + res.failure_count = totalQueries ∧
        res.response_times.length = res.success_count) := by
  refine ⟨performLoop_ok_invariant resolver env domain debug totalQueries, ?_⟩
  intro res h
  have hinv := performLoop_ok_invariant resolver env domain debug totalQueries
    (List.range totalQueries) initState res h rfl
  simpa [initState] using hinv

/-- Environment for the C1 witness: query 0 succeeds (readings 0 and 1, latency
1000 ms), query 1 fails. -/
def c1Env : ℕ → QueryEnv := fun i =>
  if i = 0 then
    { resolveRes := Except.ok "192.0.2.1", t0 := 0, t1 := 1,
      timestamp := "2024-01-01 00:00:03", writeOk := fun _ => true }
  else
    { resolveRes := Except.error "The DNS operation timed out", t0 := 2, t1 := 3,
      timestamp := "2024-01-01 00:00:04", writeOk := fun _ => true }

/-- The aggregate of the C1 witness run. -/
def c1Run : RunState :=
  { success_count := 1, failure_count := 1, response_times := [1000], log := [],
    calls := [(1, exResolver), (2, exResolver)],
    renders := [(1 / 2, 1, 2), (1, 2, 2)] }

/-- Witness for C1: a concrete 2-query run (one success at 1000 ms, one failure). -/
theorem run_aggregate_invariant_witness :
    c1Run.success_count + c1Run.failure_count = 2 ∧
    c1Run.response_times.length = c1Run.success_count :=
  (run_aggregate_invariant exResolver c1Env "example.test" false 2).2 c1Run
    (by norm_num [perform_dns_queries, List.range_succ, performLoop, test_dns_query,
      stepState, initState, c1Env, c1Run])

/-- C2: the Query-Run Driver has no early-exit or abort condition — for every
`totalQueries` and every sequence of per-query outcomes (all failures included, i.e.
whenever each scheduled query yields an outcome at all), the run completes and its
invocation trace is exactly `[(1, resolver), ..., (totalQueries, resolver)]`: the
Single-Query Executor is invoked exactly `totalQueries` times, strictly sequentially. -/
theorem perform_dns_queries_no_early_exit (resolver : Resolver) (env : ℕ → QueryEnv)
    (domain : String) (debug : Bool) (totalQueries : ℕ)
    (h : ∀ i < totalQueries, ∃ v,
        (test_dns_query resolver (env i) domain debug (i + 1) totalQueries).result
          = Except.ok v) :
    ∃ res, perform_dns_queries resolver env domain debug totalQueries = Except.ok res ∧
      res.calls = (List.range totalQueries).map (fun i => (i + 1, resolver)) := by
  obtain ⟨res, hres⟩ := performLoop_ok_of_outcomes resolver env domain debug totalQueries
    (List.range totalQueries) initState (fun i hi => h i (List.mem_range.1 hi))
  refine ⟨res, hres, ?_⟩
  have hc := performLoop_ok_calls resolver env domain debug totalQueries
    (List.range totalQueries) initState res hres
  simpa [initState] using hc

/-- Environment for the C2 witness: every query fails. -/
def c2Env : ℕ → QueryEnv := fun _ =>
  { resolveRes := Except.error "The DNS operation timed out", t0 := 0, t1 := 1,
    timestamp := "2024-01-01 00:00:05", writeOk := fun _ => true }

/-- Witness for C2: a 2-query run whose every query fails still performs exactly two
sequential executor invocations. -/
theorem perform_dns_queries_no_early_exit_witness :
    ∃ res, perform_dns_queries exResolver c2Env "example.test" false 2 = Except.ok res ∧
      res.calls = (List.range 2).map (fun i => (i + 1, exResolver)) :=
  perform_dns_queries_no_early_exit exResolver c2Env "example.test" false 2
    (fun i _ => ⟨(false, none), rfl⟩)

/-- C9 counterexample: at timeout = -1 ≤ 0 `configure_resolver` does not fail fast with
a construction error — it returns a normally constructed resolver carrying the
nonpositive timeout, diverging from the spec-modelled constructor, which errors. -/
theorem configure_resolver_accepts_nonpositive_timeout :
    (-1 : ℚ) ≤ 0 ∧
    configure_resolver "203.0.113.1" (-1)
      = { nameservers := ["203.0.113.1"], timeout := -1, lifetime := -1 } ∧
    configure_resolver_specced "203.0.113.1" (-1)
      = Except.error "timeout must be positive" :=
  ⟨by norm_num, rfl, rfl⟩

/-- C9 amended: `configure_resolver` performs no timeout validation — for every timeout,
nonpositive values included, it returns the configuration
`{nameservers := [dns_server], timeout, lifetime := timeout}` — and in any completed run
every executor invocation is passed that same configuration. -/
theorem configure_resolver_total_and_uniform (dns_server : String) (timeout : ℚ)
    (env : ℕ → QueryEnv) (domain : String) (debug : Bool) (totalQueries : ℕ)
    (res : RunState)
    (h : perform_dns_queries (configure_resolver dns_server timeout) env domain debug
      totalQueries = Except.ok res) :
    configure_resolver dns_server timeout
      = { nameservers := [dns_server], timeout := timeout, lifetime := timeout } ∧
    ∀ p ∈ res.calls, p.2 = configure_resolver dns_server timeout := by
  refine ⟨rfl, ?_⟩
  have hc := performLoop_ok_calls (configure_resolver dns_server timeout) env domain
    debug totalQueries (List.range totalQueries) initState res h
  intro p hp
  rw [hc] at hp
  simp only [initState, List.nil_append, List.mem_map] at hp
  obtain ⟨i, _, hpe⟩ := hp
  subst hpe
  rfl

/-- Environment for the C9 witness: a single failing query. -/
def c9Env : ℕ → QueryEnv := fun _ =>
  { resolveRes := Except.error "The DNS operation timed out", t0 := 0, t1 := 1,
    timestamp := "2024-01-01 00:00:06", writeOk := fun _ => true }

/-- The aggregate of the C9 witness run. -/
def c9Run : RunState :=
  { success_count := 0, failure_count := 1, response_times := [], log := [],
    calls := [(1, configure_resolver "8.8.8.8" 1)], renders := [(1, 1, 1)] }

/-- Witness for C9 amended: a concrete completed 1-query run with timeout 1. -/
theorem configure_resolver_total_and_uniform_witness :
    configure_resolver "8.8.8.8" 1
      = { nameservers := ["8.8.8.8"], timeout := 1, lifetime := 1 } ∧
    ∀ p ∈ c9Run.calls, p.2 = configure_resolver "8.8.8.8" 1 :=
  configure_resolver_total_and_uniform "8.8.8.8" 1 c9Env "example.test" false 1 c9Run
    (by norm_num [perform_dns_queries, List.range_succ, performLoop, test_dns_query,
      stepState, initState, c9Env, c9Run, configure_resolver])

end DnsQueryTool
